import Mathlib

/-!
Shallow embedding of the Programs page of `atlp-rwanda/pulse-atlp`
(`src/pages/Programs/Programs.tsx`): the page-local component state, the
creation-form handlers (`newProgramOnChangeHandler`, `addNewProgramHandler`),
the initial list load, and the display classification, together with proofs
of the documented properties of this flow.
-/

namespace PulseAtlp

/-- The `Program` record type from `Programs.tsx` (lines 21-28).
JavaScript `Date` values are modelled as integer milliseconds since the
epoch; the optional fields `id` and `prerequisiteProgramId` are `Option`. -/
structure Program where
  id : Option String
  title : String
  createdAt : Int
  prerequisiteProgramId : Option String
  traineeCount : Nat
  durationInWeeks : Nat
deriving DecidableEq, Repr

/-- One entry of a joi `ValidationError`'s `details` array: the offending
field's path and a human-readable message. -/
structure ErrorDetail where
  path : List String
  message : String
deriving DecidableEq, Repr

/-- A joi `ValidationError`: a top-level `message` and the ordered list of
per-field `details`. -/
structure ValidationErr where
  message : String
  details : List ErrorDetail
deriving DecidableEq, Repr

/-- The possible outcomes of `ProgramModel.create(newProgram)` as observed by
`addNewProgramHandler`: the promise resolves with a document reference
carrying an `id`, rejects with a joi `ValidationError`, or rejects with any
other error (transport failure, etc.). -/
inductive CreateOutcome where
  | success (id : String)
  | validationFailure (e : ValidationErr)
  | otherFailure
deriving DecidableEq, Repr

/-- A Firestore `Timestamp` (seconds plus nanoseconds since the epoch), the
persisted representation of `createdAt` in a stored record. -/
structure Timestamp where
  seconds : Int
  nanoseconds : Nat
deriving DecidableEq, Repr

/-- `Timestamp.toDate()`: the JavaScript `Date` (milliseconds since the
epoch) denoted by a Firestore timestamp. -/
def Timestamp.toDate (t : Timestamp) : Int :=
  t.seconds * 1000 + (t.nanoseconds / 1000000 : Nat)

/-- A stored program snapshot as returned by `program.data()` inside
`ProgramModel.getAll()`: the same fields as `Program` but with `createdAt`
still in its persisted Firestore `Timestamp` representation. -/
structure StoredProgram where
  id : Option String
  title : String
  createdAt : Timestamp
  prerequisiteProgramId : Option String
  traineeCount : Nat
  durationInWeeks : Nat
deriving DecidableEq, Repr

/-- The per-record conversion performed in the `getAll` success callback
(lines 182-185): keep every field and replace `createdAt` by
`new Date(createdAt.toDate())`, i.e. the native date for the same instant. -/
def convertStored (sp : StoredProgram) : Program :=
  { id := sp.id
    title := sp.title
    createdAt := sp.createdAt.toDate
    prerequisiteProgramId := sp.prerequisiteProgramId
    traineeCount := sp.traineeCount
    durationInWeeks := sp.durationInWeeks }

/-- The accumulation loop of the `getAll` success callback (lines 179-186):
starting from the empty array, append each snapshot's converted record. -/
def processSnapshot (snap : List StoredProgram) : List Program :=
  snap.foldl (fun acc p => acc ++ [convertStored p]) []

/-- The component-local state of `ProgramsPage` (lines 144-158) plus the
modal's open flag: `programs`, `isLoading`, `isCreatingProgram`, the
`errors` object (modelled as an association list of its own keys, since the
handlers store whole fresh objects), and the `newProgram` draft. -/
structure PageState where
  programs : List Program
  isLoading : Bool
  isCreatingProgram : Bool
  errors : List (String × String)
  newProgram : Program
  modalOpen : Bool
deriving DecidableEq, Repr

/-- The initial state of `ProgramsPage` (lines 144-158): empty list, loading,
not creating, three empty error slots, and the seed draft
`{title: '', prerequisiteProgramId: '', createdAt: new Date(), traineeCount: 0,
durationInWeeks: 2}`. `now` is the value of `new Date()` at mount. -/
def initialPageState (now : Int) : PageState :=
  { programs := []
    isLoading := true
    isCreatingProgram := false
    errors := [("title", ""), ("prerequisiteProgramId", ""), ("durationInWeeks", "")]
    newProgram :=
      { id := none
        title := ""
        createdAt := now
        prerequisiteProgramId := some ""
        traineeCount := 0
        durationInWeeks := 2 }
    modalOpen := false }

/-- Modelled from the spec: the modal component (`useModal` in
`src/components/Modal/Modal`) is not included in the sources; per the spec
the dialog is opened from `Idle` and closed on successful creation by the
injected `toggleModal`, i.e. the toggle flips the open flag. -/
def toggleModal (open_ : Bool) : Bool := !open_

/-- Whether a character is matched by `.` in a JavaScript regular expression
without the `s` flag: any character except a line terminator. -/
def jsDotMatches (c : Char) : Bool :=
  c != '\n' && c != '\r' && c != Char.ofNat 0x2028 && c != Char.ofNat 0x2029

/-- Index of the last occurrence of `c` in a character list, if any. -/
def lastIdxOf (c : Char) : List Char → Option Nat
  | [] => none
  | x :: xs =>
    match lastIdxOf c xs with
    | some j => some (j + 1)
    | none => if x = c then some 0 else none

/-- The message transformation of line 98,
`err.message.replace(/^".+"/, 'Field')`: if the string starts with `"` and a
second `"` occurs later with only `.`-matchable characters in between, the
greedy match runs to the last such `"` and the whole match is replaced by
`Field`; otherwise the string is unchanged. -/
def sanitizeMessage (s : String) : String :=
  match s.data with
  | '"' :: rest =>
    match lastIdxOf '"' (rest.takeWhile jsDotMatches) with
    | some j => if 1 ≤ j then String.mk ("Field".data ++ rest.drop (j + 1)) else s
    | none => s
  | _ => s

/-- A change event on one of the creation form's text inputs: the input's
`name` attribute selects the draft field, the value is the new contents. -/
inductive EditEvent where
  | setTitle (v : String)
  | setDurationInWeeks (v : Nat)
  | setPrerequisiteProgramId (v : String)
deriving DecidableEq, Repr

/-- `newProgramOnChangeHandler` (lines 78-80):
`newProgram = { ...newProgram, [event.target.name]: event.target.value }` —
a copy of the draft with exactly the named field replaced. -/
def newProgramOnChangeHandler (p : Program) (e : EditEvent) : Program :=
  match e with
  | .setTitle v => { p with title := v }
  | .setDurationInWeeks v => { p with durationInWeeks := v }
  | .setPrerequisiteProgramId v => { p with prerequisiteProgramId := some v }

/-- A field edit at page level: only the draft binding changes; no state
setter is invoked by `newProgramOnChangeHandler`, so every other piece of
page state is untouched. -/
def applyFieldEdit (s : PageState) (e : EditEvent) : PageState :=
  { s with newProgram := newProgramOnChangeHandler s.newProgram e }

/-- `addNewProgramHandler` (lines 82-102) as a state transformer on the page
state, indexed by the outcome of `ProgramModel.create`:
  - first `updateCreatingProgramStatus(true)`;
  - on success: `toggleModal()`, clear the creating flag, append
    `{...newProgram, id: docRef.id}` to the list, store `{}` as the errors;
  - on a `ValidationError`: clear the creating flag, re-store the draft
    (`updateNewProgram(newProgram)`, the identity on the tracked draft),
    and store the single pair `{[err.details[0].path[0]]: errorMessage}`
    with `errorMessage = err.message.replace(/^".+"/, 'Field')`.
    `path[0]` of an empty path is `undefined`, which as a computed key is
    the string "undefined"; an empty `details` array would throw before
    `updateErrors` runs, leaving the errors unchanged;
  - on any other rejection the `catch` body does nothing. -/
def addNewProgramHandler (s : PageState) (outcome : CreateOutcome) : PageState :=
  let s1 : PageState := { s with isCreatingProgram := true }
  match outcome with
  | .success docRefId =>
    { s1 with
      modalOpen := toggleModal s1.modalOpen
      isCreatingProgram := false
      programs := s1.programs ++ [{ s1.newProgram with id := some docRefId }]
      errors := [] }
  | .validationFailure e =>
    match e.details with
    | [] => { s1 with isCreatingProgram := false }
    | d :: _ =>
      { s1 with
        isCreatingProgram := false
        newProgram := s1.newProgram
        errors := [(d.path.headD "undefined", sanitizeMessage e.message)] }
  | .otherFailure => s1

/-- The outcome of the `ProgramModel.getAll()` promise: a collection
snapshot, or a rejection carrying an error message. -/
inductive LoadOutcome where
  | success (snap : List StoredProgram)
  | failure (errMessage : String)
deriving DecidableEq, Repr

/-- Result of running the load callbacks: the updated page state and the
messages written by `console.log`. -/
structure LoadResult where
  state : PageState
  logged : List String
deriving DecidableEq, Repr

/-- The `getAll` handling of lines 177-195: on success convert every
snapshot record and replace the list wholesale (`updatePrograms`); on
failure `console.log(err.message)` and leave the list alone; in `finally`,
`updateLoadingStatus(false)` either way. -/
def loadPrograms (s : PageState) (o : LoadOutcome) : LoadResult :=
  match o with
  | .success snap =>
    { state := { s with programs := processSnapshot snap, isLoading := false }
      logged := [] }
  | .failure m =>
    { state := { s with isLoading := false }
      logged := [m] }

/-- The three mutually exclusive renderings of `ProgramsPage`. -/
inductive ViewState where
  | loading
  | emptyState
  | populated
deriving DecidableEq, Repr

/-- The render selection of lines 176-255 as a function of
`(programs, isLoading)`: `if (isLoading)` the loading indicator;
`if (programs.length === 0 && !isLoading)` the empty state; otherwise the
toolbar plus one card per program. -/
def displayClassification (programs : List Program) (isLoading : Bool) : ViewState :=
  if isLoading then .loading
  else if programs.length == 0 && !isLoading then .emptyState
  else .populated

/-- The `disabled` prop of the `prerequisiteProgramId` input (line 129):
`programs.length === 0`. -/
def prerequisiteInputDisabled (programs : List Program) : Bool :=
  programs.length == 0

/-- The events that can reach the page after mount: completion of the
initial load, a form field edit, a dialog toggle, or a form submit with its
create outcome. Each of these applies its state updates as one transition. -/
inductive PageEvent where
  | loadComplete (o : LoadOutcome)
  | fieldEdit (e : EditEvent)
  | toggleDialog
  | submit (o : CreateOutcome)
deriving DecidableEq, Repr

/-- The page's transition function: each event's handler from the source. -/
def step (s : PageState) (ev : PageEvent) : PageState :=
  match ev with
  | .loadComplete o => (loadPrograms s o).state
  | .fieldEdit e => applyFieldEdit s e
  | .toggleDialog => { s with modalOpen := toggleModal s.modalOpen }
  | .submit o => addNewProgramHandler s o

/-- Which events are possible in a given state: while `isLoading` the page
renders only the loading indicator (no form, no buttons), so the only
possible event is the completion of the pending load; once loading is over
the load promise has settled, so only user events occur. -/
def eventEnabled (s : PageState) (ev : PageEvent) : Bool :=
  match ev with
  | .loadComplete _ => s.isLoading
  | .fieldEdit _ => !s.isLoading
  | .toggleDialog => !s.isLoading
  | .submit _ => !s.isLoading

/-- A trace of events is valid when each event is enabled in the state it
fires from. -/
def validTrace (s : PageState) : List PageEvent → Bool
  | [] => true
  | ev :: rest => eventEnabled s ev && validTrace (step s ev) rest

/-- Number of re-renders along a trace whose state still has `isLoading`
set: each such render re-enters the `if (isLoading)` branch of line 176 and
issues another `ProgramModel.getAll()` call. -/
def rendersWhileLoading (s : PageState) : List PageEvent → Nat
  | [] => 0
  | ev :: rest =>
    let s1 := step s ev
    (if s1.isLoading then 1 else 0) + rendersWhileLoading s1 rest

/-- Total number of `ProgramModel.getAll()` invocations over a page
lifetime: one for the mount render if it happens while loading, plus one per
later render whose state is still loading. -/
def getAllInvocations (s : PageState) (evs : List PageEvent) : Nat :=
  (if s.isLoading then 1 else 0) + rendersWhileLoading s evs

/-- A concrete page state used to exercise the handlers: the spec's example
draft (title Cohort 5, six weeks, zero trainees) with the dialog open. -/
def sampleState : PageState :=
  { programs := []
    isLoading := false
    isCreatingProgram := false
    errors := []
    newProgram :=
      { id := none
        title := "Cohort 5"
        createdAt := 0
        prerequisiteProgramId := none
        traineeCount := 0
        durationInWeeks := 6 }
    modalOpen := true }

/-- A concrete joi validation error reporting two field problems. -/
def sampleValidationErr : ValidationErr :=
  { message := "\"fieldName\" is required"
    details :=
      [{ path := ["fieldName"], message := "\"fieldName\" is required" },
       { path := ["title"], message := "\"title\" must be a string" }] }

/-- `takeWhile` runs through a block of characters that all satisfy the
predicate. -/
theorem takeWhile_all_append (p : Char → Bool) (l1 l2 : List Char)
    (h : ∀ c ∈ l1, p c = true) :
    (l1 ++ l2).takeWhile p = l1 ++ l2.takeWhile p := by
  induction l1 with
  | nil => simp
  | cons x xs ih =>
    have hx : p x = true := h x (by simp)
    have ih2 := ih (fun c hc => h c (by simp [hc]))
    simp [List.takeWhile_cons, hx, ih2]

/-- `lastIdxOf` misses a character that does not occur. -/
theorem lastIdxOf_eq_none (c : Char) (l : List Char) (h : ∀ x ∈ l, x ≠ c) :
    lastIdxOf c l = none := by
  induction l with
  | nil => rfl
  | cons x xs ih =>
    have hx : x ≠ c := h x (by simp)
    have ihh := ih (fun y hy => h y (by simp [hy]))
    simp [lastIdxOf, ihh, hx]

/-- `lastIdxOf` finds the unique occurrence of a character. -/
theorem lastIdxOf_last (c : Char) (l1 l2 : List Char)
    (h1 : ∀ x ∈ l1, x ≠ c) (h2 : ∀ x ∈ l2, x ≠ c) :
    lastIdxOf c (l1 ++ c :: l2) = some l1.length := by
  induction l1 with
  | nil =>
    simp only [List.nil_append]
    simp [lastIdxOf, lastIdxOf_eq_none c l2 h2]
  | cons x xs ih =>
    have ihh := ih (fun y hy => h1 y (by simp [hy]))
    simp [lastIdxOf, ihh]

/-- Dropping a marked block leaves the remainder. -/
theorem drop_after_marker (l1 l2 : List Char) (c : Char) :
    (l1 ++ c :: l2).drop (l1.length + 1) = l2 := by
  induction l1 with
  | nil => simp
  | cons x xs ih => simp [ih]

/-- Membership in a `takeWhile` block is membership in the list. -/
theorem mem_of_mem_takeWhile (p : Char → Bool) (l : List Char) (x : Char)
    (h : x ∈ l.takeWhile p) : x ∈ l := by
  induction l with
  | nil => simp at h
  | cons a as ih =>
    rw [List.takeWhile_cons] at h
    by_cases hp : p a = true
    · rw [if_pos hp] at h
      rcases List.mem_cons.mp h with h1 | h2
      · simp [h1]
      · simp [ih h2]
    · rw [if_neg hp] at h
      simp at h

/-- On a message that starts with a quoted field name and has no further
quote, the replacement of line 98 yields exactly `Field` followed by the
rest of the message. -/
theorem sanitize_quoted_head (fname tl : String)
    (hne : fname.data ≠ [])
    (hf : ∀ c ∈ fname.data, c ≠ '"' ∧ jsDotMatches c = true)
    (ht : ∀ c ∈ tl.data, c ≠ '"') :
    sanitizeMessage ("\"" ++ fname ++ "\"" ++ tl) = "Field" ++ tl := by
  have hdata : ("\"" ++ fname ++ "\"" ++ tl).data
      = '"' :: (fname.data ++ '"' :: tl.data) := by
    simp [String.data_append]
  have hq : jsDotMatches '"' = true := by decide
  have htake : (fname.data ++ '"' :: tl.data).takeWhile jsDotMatches
      = fname.data ++ '"' :: tl.data.takeWhile jsDotMatches := by
    rw [takeWhile_all_append _ _ _ (fun c hc => (hf c hc).2)]
    simp [List.takeWhile_cons, hq]
  have hlast : lastIdxOf '"' (fname.data ++ '"' :: tl.data.takeWhile jsDotMatches)
      = some fname.data.length :=
    lastIdxOf_last _ _ _ (fun x hx => (hf x hx).1)
      (fun x hx => ht x (mem_of_mem_takeWhile _ _ _ hx))
  have hlen : 1 ≤ fname.data.length := by
    cases hd : fname.data with
    | nil => exact absurd hd hne
    | cons a as => simp [hd]
  rw [sanitizeMessage, hdata]
  simp only [htake, hlast, if_pos hlen, drop_after_marker]
  cases tl with
  | mk d => rfl

/-- The accumulation loop over a snapshot is a map, for any accumulator. -/
theorem foldl_append_convertStored (snap : List StoredProgram) (acc : List Program) :
    snap.foldl (fun a p => a ++ [convertStored p]) acc
      = acc ++ snap.map convertStored := by
  induction snap generalizing acc with
  | nil => simp
  | cons x xs ih => simp [ih]

/-- Processing a snapshot converts each stored record in order. -/
theorem processSnapshot_eq_map (snap : List StoredProgram) :
    processSnapshot snap = snap.map convertStored := by
  simpa [processSnapshot] using foldl_append_convertStored snap []

/-- Submitting never touches the loading flag, whatever the outcome. -/
theorem addNewProgramHandler_isLoading (s : PageState) (o : CreateOutcome) :
    (addNewProgramHandler s o).isLoading = s.isLoading := by
  cases o with
  | success i => rfl
  | validationFailure e =>
    obtain ⟨m, dl⟩ := e
    cases dl <;> rfl
  | otherFailure => rfl

/-- Once loading is over, no enabled event turns the loading flag back on. -/
theorem step_isLoading_userEvent (s : PageState) (ev : PageEvent)
    (h : eventEnabled s ev = true) (hl : s.isLoading = false) :
    (step s ev).isLoading = false := by
  cases ev with
  | loadComplete o =>
    have ht : s.isLoading = true := h
    rw [ht] at hl
    exact Bool.noConfusion hl
  | fieldEdit e => exact hl
  | toggleDialog => exact hl
  | submit o =>
    show (addNewProgramHandler s o).isLoading = false
    rw [addNewProgramHandler_isLoading]
    exact hl

/-- After loading has completed, no later render happens in a loading
state, so the load branch of line 176 is never re-entered. -/
theorem rendersWhileLoading_zero (s : PageState) (evs : List PageEvent)
    (hl : s.isLoading = false) (hv : validTrace s evs = true) :
    rendersWhileLoading s evs = 0 := by
  induction evs generalizing s with
  | nil => rfl
  | cons ev rest ih =>
    simp only [validTrace, Bool.and_eq_true] at hv
    rcases hv with ⟨hen, hrest⟩
    have hstep := step_isLoading_userEvent s ev hen hl
    simp only [rendersWhileLoading]
    simp [hstep, ih _ hstep hrest]

/-- C1: a successful create closes the dialog, clears the submitting flag,
appends exactly the draft with the returned identifier to the program list
(one more entry, all other fields equal to the draft), and stores the empty
error set (lines 86-90). -/
theorem create_success_end_to_end (s : PageState) (docRefId : String)
    (hopen : s.modalOpen = true) :
    (addNewProgramHandler s (.success docRefId)).modalOpen = false ∧
    (addNewProgramHandler s (.success docRefId)).isCreatingProgram = false ∧
    (addNewProgramHandler s (.success docRefId)).programs
      = s.programs ++ [{ s.newProgram with id := some docRefId }] ∧
    (addNewProgramHandler s (.success docRefId)).programs.length
      = s.programs.length + 1 ∧
    (addNewProgramHandler s (.success docRefId)).errors = [] := by
  refine ⟨?_, rfl, rfl, ?_, rfl⟩
  · simp [addNewProgramHandler, toggleModal, hopen]
  · simp [addNewProgramHandler]

/-- Witness for C1: the spec's example draft submitted to a gateway that
returns id abc123. -/
theorem create_success_end_to_end_witness :
    sampleState.modalOpen = true ∧
    (addNewProgramHandler sampleState (.success "abc123")).modalOpen = false ∧
    (addNewProgramHandler sampleState (.success "abc123")).errors = [] ∧
    (addNewProgramHandler sampleState (.success "abc123")).programs.length
      = sampleState.programs.length + 1 :=
  ⟨rfl, (create_success_end_to_end sampleState "abc123" rfl).1,
    (create_success_end_to_end sampleState "abc123" rfl).2.2.2.2,
    (create_success_end_to_end sampleState "abc123" rfl).2.2.2.1⟩

/-- C2: on a validation failure whose error reports at least two field
problems, exactly one pair is stored as the whole error set (overwriting any
prior errors): the key is the first segment of the first problem's path and
the message is the raw message run through the line-98 replacement, which
turns a leading double-quoted field name into the word Field — e.g. the raw
message `"fieldName" is required` becomes `Field is required`. -/
theorem validation_failure_single_error (s : PageState) (e : ValidationErr)
    (d : ErrorDetail) (rest : List ErrorDetail) (f : String) (fp : List String)
    (hd : e.details = d :: rest) (hN : 2 ≤ e.details.length)
    (hp : d.path = f :: fp) :
    (addNewProgramHandler s (.validationFailure e)).errors
      = [(f, sanitizeMessage e.message)] ∧
    (addNewProgramHandler s (.validationFailure e)).errors.length = 1 ∧
    sanitizeMessage "\"fieldName\" is required" = "Field is required" := by
  obtain ⟨m, dl⟩ := e
  simp only at hd
  subst hd
  refine ⟨?_, ?_, ?_⟩
  · simp [addNewProgramHandler, hp]
  · simp [addNewProgramHandler]
  · rfl

/-- Witness for C2: a two-problem validation error on the sample state. -/
theorem validation_failure_single_error_witness :
    sampleValidationErr.details.length = 2 ∧
    (addNewProgramHandler sampleState (.validationFailure sampleValidationErr)).errors
      = [("fieldName", sanitizeMessage "\"fieldName\" is required")] ∧
    sanitizeMessage "\"fieldName\" is required" = "Field is required" := by
  have h := validation_failure_single_error sampleState sampleValidationErr
    { path := ["fieldName"], message := "\"fieldName\" is required" }
    [{ path := ["title"], message := "\"title\" must be a string" }]
    "fieldName" [] rfl (by decide) rfl
  exact ⟨rfl, h.1, h.2.2⟩

/-- C3: the rendered view is a pure total function of
`(programs, isLoading)`: loading wins, then an empty list gives the
empty-state view, and a nonempty list the toolbar-plus-cards view; in
particular a `getAll` resolving to zero records yields the empty-state view
once loading completes. -/
theorem display_classification_cases (programs ps : List Program)
    (p : Program) (now : Int) :
    displayClassification programs true = .loading ∧
    displayClassification [] false = .emptyState ∧
    displayClassification (p :: ps) false = .populated ∧
    displayClassification
      (loadPrograms (initialPageState now) (.success [])).state.programs
      (loadPrograms (initialPageState now) (.success [])).state.isLoading
      = .emptyState :=
  ⟨rfl, rfl, rfl, rfl⟩

/-- C4: a creation failure that is not a `ValidationError` hits an empty
`catch` arm (lines 91-100): the entire effect of the submit is setting the
submitting flag, which is left `true`; no error is stored and the program
list is unchanged. -/
theorem nonvalidation_failure_swallowed (s : PageState) :
    addNewProgramHandler s .otherFailure = { s with isCreatingProgram := true } ∧
    (addNewProgramHandler s .otherFailure).errors = s.errors ∧
    (addNewProgramHandler s .otherFailure).programs = s.programs ∧
    (addNewProgramHandler s .otherFailure).isCreatingProgram = true :=
  ⟨rfl, rfl, rfl, rfl⟩

/-- C5: the initial load clears the loading flag on either outcome; on
success every stored record's timestamp is converted to the native date and
the list is replaced wholesale by the converted snapshot; on failure the
error message is logged and the list stays empty. -/
theorem initial_load_behavior (now : Int) (o : LoadOutcome) (sp : StoredProgram) :
    (loadPrograms (initialPageState now) o).state.isLoading = false ∧
    (convertStored sp).createdAt = sp.createdAt.toDate ∧
    (match o with
      | .success snap =>
        (loadPrograms (initialPageState now) o).state.programs
          = snap.map convertStored ∧
        (loadPrograms (initialPageState now) o).logged = []
      | .failure m =>
        (loadPrograms (initialPageState now) o).state.programs = [] ∧
        (loadPrograms (initialPageState now) o).logged = [m]) := by
  refine ⟨?_, rfl, ?_⟩
  · cases o <;> rfl
  · cases o with
    | success snap =>
      exact ⟨by simp [loadPrograms, processSnapshot_eq_map], rfl⟩
    | failure m => exact ⟨rfl, rfl⟩

/-- C6: after a failed validation submit, the retained draft equals the
submitted draft exactly and the dialog stays open (the validation arm never
calls `toggleModal` and re-stores the draft unchanged, lines 92-95). -/
theorem draft_retained_on_validation_failure (s : PageState) (e : ValidationErr)
    (hopen : s.modalOpen = true) :
    (addNewProgramHandler s (.validationFailure e)).newProgram = s.newProgram ∧
    (addNewProgramHandler s (.validationFailure e)).modalOpen = true := by
  obtain ⟨m, dl⟩ := e
  cases dl with
  | nil => exact ⟨rfl, hopen⟩
  | cons d ds => exact ⟨rfl, hopen⟩

/-- Witness for C6: the sample validation error on the sample open state. -/
theorem draft_retained_on_validation_failure_witness :
    sampleState.modalOpen = true ∧
    (addNewProgramHandler sampleState (.validationFailure sampleValidationErr)).newProgram
      = sampleState.newProgram ∧
    (addNewProgramHandler sampleState (.validationFailure sampleValidationErr)).modalOpen
      = true :=
  ⟨rfl,
    (draft_retained_on_validation_failure sampleState sampleValidationErr rfl).1,
    (draft_retained_on_validation_failure sampleState sampleValidationErr rfl).2⟩

/-- C7: over any valid event trace of a page lifetime, `getAll()` is
invoked at most once: the mount render fires it, the load completion turns
the loading flag off in one transition, and no later event can turn it back
on, so the `if (isLoading)` branch never re-renders. -/
theorem getAll_called_at_most_once (now : Int) (evs : List PageEvent)
    (hv : validTrace (initialPageState now) evs = true) :
    getAllInvocations (initialPageState now) evs ≤ 1 := by
  cases evs with
  | nil => simp [getAllInvocations, rendersWhileLoading, initialPageState]
  | cons ev rest =>
    simp only [validTrace, Bool.and_eq_true] at hv
    rcases hv with ⟨hen, hrest⟩
    cases ev with
    | loadComplete o =>
      have hstep :
          (step (initialPageState now) (.loadComplete o)).isLoading = false := by
        cases o <;> rfl
      have hzero := rendersWhileLoading_zero _ rest hstep hrest
      have hl : (initialPageState now).isLoading = true := rfl
      simp [getAllInvocations, rendersWhileLoading, hl, hstep, hzero]
    | fieldEdit e => simp [eventEnabled, initialPageState] at hen
    | toggleDialog => simp [eventEnabled, initialPageState] at hen
    | submit o => simp [eventEnabled, initialPageState] at hen

/-- Witness for C7: the one-event trace that completes the load. -/
theorem getAll_called_at_most_once_witness :
    validTrace (initialPageState 0) [PageEvent.loadComplete (.success [])] = true ∧
    getAllInvocations (initialPageState 0) [PageEvent.loadComplete (.success [])] ≤ 1 :=
  ⟨rfl, getAll_called_at_most_once 0 [PageEvent.loadComplete (.success [])] rfl⟩

/-- C8: a field edit replaces exactly the named draft field with the new
value, leaves every other draft field and every other piece of page state
unchanged, and stores no validation result (the errors are untouched). -/
theorem field_edit_updates_named_field (s : PageState) (e : EditEvent) :
    (applyFieldEdit s e).errors = s.errors ∧
    (applyFieldEdit s e).programs = s.programs ∧
    (applyFieldEdit s e).isLoading = s.isLoading ∧
    (applyFieldEdit s e).isCreatingProgram = s.isCreatingProgram ∧
    (applyFieldEdit s e).modalOpen = s.modalOpen ∧
    (match e with
      | .setTitle v =>
        (applyFieldEdit s e).newProgram = { s.newProgram with title := v }
      | .setDurationInWeeks v =>
        (applyFieldEdit s e).newProgram = { s.newProgram with durationInWeeks := v }
      | .setPrerequisiteProgramId v =>
        (applyFieldEdit s e).newProgram
          = { s.newProgram with prerequisiteProgramId := some v }) := by
  refine ⟨rfl, rfl, rfl, rfl, rfl, ?_⟩
  cases e <;> rfl

/-- C9: a submit that fails validation leaves the program list exactly as
it was — the validation arm of the `catch` never calls `updatePrograms`. -/
theorem validation_failure_programs_unchanged (s : PageState) (e : ValidationErr) :
    (addNewProgramHandler s (.validationFailure e)).programs = s.programs := by
  obtain ⟨m, dl⟩ := e
  cases dl <;> rfl

/-- C10: the prerequisite-program input is disabled exactly when the
in-memory program list is empty (line 129). -/
theorem prerequisite_disabled_iff_no_programs (programs : List Program) :
    prerequisiteInputDisabled programs = true ↔ programs = [] := by
  cases programs <;> simp [prerequisiteInputDisabled]

end PulseAtlp
